import Mathlib

set_option maxHeartbeats 1000000

/-!
Shallow embedding of the write-hand web application (src/app.py), a small
Flask service that accepts an image upload plus three text fields, runs the
external tool handwrite as a subprocess, and serves the generated TTF file
exactly once.  Python strings are modelled as lists of characters, paths as
lists of path components and the filesystem as the list of existing paths.
-/

namespace WriteHand

/-- Python strings, modelled as lists of Unicode characters. -/
abbrev PyStr := List Char

/-- A filesystem path as its list of components, in the sense of pathlib. -/
abbrev FPath := List PyStr

/-- The filesystem state: the list of files that currently exist. -/
abbrev FS := List FPath

/-- The character set removed by Python `str.strip()` (the characters on
which `str.isspace` is true): 0x09 to 0x0D, 0x1C to 0x1F, the space 0x20,
NEL 0x85, NBSP 0xA0, and the Unicode space and line separators. -/
def isPyWS (c : Char) : Bool :=
  (0x09 ≤ c.toNat && c.toNat ≤ 0x0D) || (0x1C ≤ c.toNat && c.toNat ≤ 0x20) ||
  c.toNat == 0x85 || c.toNat == 0xA0 || c.toNat == 0x1680 ||
  (0x2000 ≤ c.toNat && c.toNat ≤ 0x200A) || c.toNat == 0x2028 ||
  c.toNat == 0x2029 || c.toNat == 0x202F || c.toNat == 0x205F ||
  c.toNat == 0x3000

/-- Python `str.strip()`: drop leading and trailing whitespace characters. -/
def pyStrip (s : PyStr) : PyStr := (s.dropWhile isPyWS).rdropWhile isPyWS

/-- The character filter of `sanitize_text` in src/app.py line 34:
`c.isalnum() or c in (" ", "-", "_")`.  Python `str.isalnum` classifies all
of Unicode, so it is passed in as an abstract classifier `alnum`. -/
def keepChar (alnum : Char → Bool) (c : Char) : Bool :=
  alnum c || c == ' ' || c == '-' || c == '_'

/-- src/app.py lines 32-34, `sanitize_text`: keep only alphanumeric
characters, spaces, hyphens and underscores, then strip surrounding
whitespace. -/
def sanitize_text (alnum : Char → Bool) (value : PyStr) : PyStr :=
  pyStrip (value.filter (keepChar alnum))

/-- Python `str.isalnum` restricted to the ASCII range, used to run the
model on concrete ASCII inputs (on ASCII, Python isalnum is exactly
letter-or-digit). -/
def asciiAlnum (c : Char) : Bool := c.isAlphanum

/-- src/app.py line 26: the upload extension allow-list. -/
def ALLOWED_EXTENSIONS : List PyStr := [("png").data, ("jpg").data, ("jpeg").data]

/-- Python `str.lower` per character; Python lowercasing is Unicode but the
allow-list comparison only involves ASCII, where this agrees with it. -/
def pyLower (c : Char) : Char := c.toLower

/-- Python `str.lower` on a whole string. -/
def lowerStr (s : PyStr) : PyStr := s.map pyLower

/-- Python `s.rsplit(".", 1)[1]`: the substring after the last dot.  The
program only evaluates this after checking that `s` contains a dot; on a
dotless string this total model returns `s` itself. -/
def afterLastDot (s : PyStr) : PyStr :=
  (s.reverse.takeWhile (fun c => c ≠ '.')).reverse

/-- src/app.py lines 28-29, `allowed_file`: the name contains a dot and its
lowercased final suffix is in the allow-list. -/
def allowed_file (filename : PyStr) : Bool :=
  decide ('.' ∈ filename) &&
    decide (lowerStr (afterLastDot filename) ∈ ALLOWED_EXTENSIONS)

/-- Split a string on slashes, dropping empty components, accumulating the
current component in reverse in `acc`.  This models how pathlib parses a
string argument into path components. -/
def splitSlashAux : PyStr → PyStr → List PyStr
  | [], acc => if acc = [] then [] else [acc.reverse]
  | c :: rest, acc =>
    if c = '/' then
      if acc = [] then splitSlashAux rest []
      else acc.reverse :: splitSlashAux rest []
    else splitSlashAux rest (c :: acc)

/-- The components of a string path argument. -/
def splitSlash (s : PyStr) : List PyStr := splitSlashAux s []

/-- pathlib `base / s` (the `/` operator used in src/app.py lines 90, 130,
149 and 162): an argument rooted at a slash replaces the base, otherwise
the argument's components are appended to the base. -/
def pathJoin (base : FPath) (s : PyStr) : FPath :=
  if s.head? = some '/' then splitSlash s else base ++ splitSlash s

/-- `Path.unlink(missing_ok=True)`: remove the path from the filesystem; a
total function, so deleting an absent file is a no-op rather than an
error. -/
def unlink (p : FPath) (fs : FS) : FS := fs.filter (fun q => q ≠ p)

/-- `file.save(path)`: the file now exists. -/
def writeFile (p : FPath) (fs : FS) : FS := p :: fs

/-- The multipart form data of a POST /generate request: whether a
`pngfile` part is present, its claimed filename, and the three raw text
fields. -/
structure GenRequest where
  hasFile : Bool
  fileName : PyStr
  family : PyStr
  style : PyStr
  filenameField : PyStr
deriving DecidableEq

/-- The outcome of the `subprocess.run` call in src/app.py lines 107-112.
The external tool is a black box, so the timed-out and completed outcomes
carry an arbitrary effect `eff` on the filesystem describing whatever the
tool wrote before stopping; when the executable is not found no process
ran, so the filesystem is untouched. -/
inductive RunOutcome where
  | execNotFound
  | timedOut (eff : FS → FS)
  | completed (returncode : Int) (stdout stderr : PyStr) (eff : FS → FS)

/-- The HTTP response of the POST /generate handler: either
`flash(msg); redirect(url_for("generate"))` or the success redirect to
`download_font` with the given key. -/
inductive GenResponse where
  | flashRedirect (msg : PyStr)
  | redirectFont (key : PyStr)
deriving DecidableEq

/-- The result of one POST /generate request: the response, the filesystem
afterwards, and the argv passed to `subprocess.run` if that call was
reached at all. -/
structure GenResult where
  response : GenResponse
  fs : FS
  invoked : Option (List PyStr)

/-- src/app.py line 111: the hard wall-clock limit (seconds) passed to
`subprocess.run`. -/
def timeoutSeconds : Nat := 120

/-- `str(path)` for a path value built by pathlib joins. -/
def renderPath (p : FPath) : PyStr := List.intercalate (['/']) p

/-- src/app.py lines 97-104: the argv list handed to `subprocess.run`.
The command is a list of separate argument strings and `shell=True` is not
passed, so no shell ever interprets them. -/
def buildCmd (imgPath outDir : FPath) (family style filename : PyStr) :
    List PyStr :=
  [("handwrite").data, renderPath imgPath, renderPath outDir,
   ("--family").data, family, ("--style").data, style,
   ("--filename").data, filename]

/-- src/app.py line 90: the storage path of the upload,
`UPLOAD_DIR / f"{job_id}.{ext}"`. -/
def uploadPath (UPLOAD_DIR : FPath) (jobId ext : PyStr) : FPath :=
  pathJoin UPLOAD_DIR (jobId ++ '.' :: ext)

/-- src/app.py lines 130, 149, 162: the artifact path
`OUTPUT_DIR / f"{key}.ttf"`. -/
def ttfPath (OUTPUT_DIR : FPath) (key : PyStr) : FPath :=
  pathJoin OUTPUT_DIR (key ++ (".ttf").data)

def msgNoFilePart : PyStr := ("No file part in the request.").data
def msgNoFileSelected : PyStr := ("No file selected.").data
def msgOnlyImages : PyStr := ("Only JPG or PNG files are accepted.").data
def msgFamilyRequired : PyStr := ("Font family name is required.").data
def msgStyleRequired : PyStr := ("Font style is required.").data
def msgFilenameRequired : PyStr := ("File name is required.").data
def msgNotInstalled : PyStr :=
  ("handwrite is not installed. Run: pip install handwrite").data
def msgTimedOut : PyStr := ("Font generation timed out. Please try again.").data
def msgNoOutput : PyStr := ("handwrite ran but produced no output file.").data

/-- src/app.py line 126: `f"handwrite failed: ..."` with the stripped
stderr if non-empty, else the stripped stdout (Python `or`). -/
def msgHandwriteFailed (stdout stderr : PyStr) : PyStr :=
  ("handwrite failed: ").data ++
    (if pyStrip stderr ≠ [] then pyStrip stderr else pyStrip stdout)

/-- src/app.py lines 53-137, the POST branch of `generate`: validate the
file part and the three text fields, save the upload, run the tool, delete
the upload on every path after the save, and answer according to the
outcome.  `alnum` abstracts Python `str.isalnum`; `jobId` abstracts
`uuid.uuid4().hex`; `outcome` abstracts the subprocess result. -/
def generate (alnum : Char → Bool) (UPLOAD_DIR OUTPUT_DIR : FPath)
    (req : GenRequest) (jobId : PyStr) (outcome : RunOutcome) (fs : FS) :
    GenResult :=
  if req.hasFile = false then ⟨.flashRedirect msgNoFilePart, fs, none⟩
  else if req.fileName = [] then ⟨.flashRedirect msgNoFileSelected, fs, none⟩
  else if allowed_file req.fileName = false then
    ⟨.flashRedirect msgOnlyImages, fs, none⟩
  else
    let family := sanitize_text alnum req.family
    let style := sanitize_text alnum req.style
    let filename := sanitize_text alnum req.filenameField
    if family = [] then ⟨.flashRedirect msgFamilyRequired, fs, none⟩
    else if style = [] then ⟨.flashRedirect msgStyleRequired, fs, none⟩
    else if filename = [] then ⟨.flashRedirect msgFilenameRequired, fs, none⟩
    else
      let ext := lowerStr (afterLastDot req.fileName)
      let imgPath := uploadPath UPLOAD_DIR jobId ext
      let fs1 := writeFile imgPath fs
      let cmd := buildCmd imgPath OUTPUT_DIR family style filename
      match outcome with
      | .execNotFound =>
        ⟨.flashRedirect msgNotInstalled, unlink imgPath fs1, some cmd⟩
      | .timedOut eff =>
        ⟨.flashRedirect msgTimedOut, unlink imgPath (eff fs1), some cmd⟩
      | .completed rc stdout stderr eff =>
        let fs2 := unlink imgPath (eff fs1)
        if rc ≠ 0 then
          ⟨.flashRedirect (msgHandwriteFailed stdout stderr), fs2, some cmd⟩
        else if ttfPath OUTPUT_DIR filename ∉ fs2 then
          ⟨.flashRedirect msgNoOutput, fs2, some cmd⟩
        else
          ⟨.redirectFont filename, fs2, some cmd⟩

/-- The response of a retrieval endpoint: `abort(400)` or `abort(404)`, the
rendered landing page, or the file attachment. -/
inductive RetResponse where
  | clientError (code : Nat)
  | page (key : PyStr)
  | fileAttachment (name : PyStr)
deriving DecidableEq

/-- src/app.py lines 142-153, `download_font` (GET /font/key): 400 unless
the key is non-empty and equals its own sanitization, 404 unless the
artifact exists, else render the landing page.  The handler never touches
the filesystem, so the state is returned unchanged. -/
def download_font (alnum : Char → Bool) (OUTPUT_DIR : FPath) (key : PyStr)
    (fs : FS) : RetResponse × FS :=
  let safe := sanitize_text alnum key
  if safe = [] ∨ safe ≠ key then (.clientError 400, fs)
  else if ttfPath OUTPUT_DIR key ∉ fs then (.clientError 404, fs)
  else (.page key, fs)

/-- src/app.py lines 156-173, `serve_font_file` (GET /font/key/file): same
400 and 404 checks; on success the file is sent as an attachment and the
`call_on_close` hook registered on the response deletes the artifact when
the response is closed, which the framework does whether the transfer
completed or the client aborted, so the request's net effect on the
filesystem is the unlink. -/
def serve_font_file (alnum : Char → Bool) (OUTPUT_DIR : FPath) (key : PyStr)
    (fs : FS) : RetResponse × FS :=
  let safe := sanitize_text alnum key
  if safe = [] ∨ safe ≠ key then (.clientError 400, fs)
  else if ttfPath OUTPUT_DIR key ∉ fs then (.clientError 404, fs)
  else (.fileAttachment (key ++ (".ttf").data),
        unlink (ttfPath OUTPUT_DIR key) fs)

/-- A child process spawned by `subprocess.run`, together with the pids of
the descendant processes it started itself. -/
structure SpawnedProc where
  childPid : Nat
  descendantPids : List Nat
deriving DecidableEq

/-- Modelled on CPython `subprocess.run`: when the 120-second timeout
expires it catches `TimeoutExpired` and calls `Popen.kill()`, which signals
the direct child pid only; src/app.py passes no process-group option
(`start_new_session`, `preexec_fn`), so descendant processes receive no
signal and stay alive. -/
def pidsAliveAfterTimeoutKill (p : SpawnedProc) (alive : List Nat) :
    List Nat :=
  alive.filter (fun q => q ≠ p.childPid)

/-- Hex digits as produced by `uuid.uuid4().hex` (lowercase). -/
def isHexDigit (c : Char) : Bool := c.isDigit || ('a' ≤ c && c ≤ 'f')

/-- The shape of `uuid.uuid4().hex`: exactly 32 lowercase hex digits. -/
def isHex32 (s : PyStr) : Bool := s.length == 32 && s.all isHexDigit

/-! ### Lemmas about the sanitizer -/

theorem prefix_head? {α : Type} {l₁ l₂ : List α} (h : l₁ <+: l₂)
    (hne : l₁ ≠ []) : l₂.head? = l₁.head? := by
  obtain ⟨t, rfl⟩ := h
  cases l₁ with
  | nil => exact absurd rfl hne
  | cons a t' => rfl

theorem dropWhile_eq_self_of_head? {α : Type} (p : α → Bool) (l : List α)
    (h : ∀ a, l.head? = some a → p a = false) : l.dropWhile p = l := by
  cases l with
  | nil => rfl
  | cons a t =>
    rw [List.dropWhile_cons_of_neg]
    simp [h a rfl]

theorem head?_dropWhile_false {α : Type} (p : α → Bool) (l : List α) (a : α)
    (h : (l.dropWhile p).head? = some a) : p a = false := by
  have hd := List.head?_dropWhile_not p l
  rw [h] at hd
  exact hd

theorem pyStrip_sublist (s : PyStr) : (pyStrip s).Sublist s := by
  have h1 := List.rdropWhile_prefix isPyWS (s.dropWhile isPyWS)
  exact h1.sublist.trans (List.dropWhile_sublist isPyWS)

theorem pyStrip_head? (s : PyStr) (a : Char)
    (h : (pyStrip s).head? = some a) : isPyWS a = false := by
  unfold pyStrip at h
  have hne : (s.dropWhile isPyWS).rdropWhile isPyWS ≠ [] := by
    intro hn
    rw [hn] at h
    cases h
  have hpre := List.rdropWhile_prefix isPyWS (s.dropWhile isPyWS)
  have heq := prefix_head? hpre hne
  rw [h] at heq
  exact head?_dropWhile_false isPyWS s a heq

theorem pyStrip_getLast? (s : PyStr) (a : Char)
    (h : (pyStrip s).getLast? = some a) : isPyWS a = false := by
  unfold pyStrip at h
  have hne : (s.dropWhile isPyWS).rdropWhile isPyWS ≠ [] := by
    intro hn
    rw [hn] at h
    cases h
  have hlast := List.rdropWhile_last_not isPyWS (s.dropWhile isPyWS) hne
  rw [List.getLast?_eq_getLast _ hne, Option.some_inj] at h
  rw [← h]
  simpa using hlast

theorem pyStrip_idem (s : PyStr) : pyStrip (pyStrip s) = pyStrip s := by
  have h1 : (pyStrip s).dropWhile isPyWS = pyStrip s :=
    dropWhile_eq_self_of_head? _ _ (fun a ha => pyStrip_head? s a ha)
  show ((pyStrip s).dropWhile isPyWS).rdropWhile isPyWS = pyStrip s
  rw [h1]
  show ((s.dropWhile isPyWS).rdropWhile isPyWS).rdropWhile isPyWS = pyStrip s
  rw [List.rdropWhile_idempotent]
  rfl

theorem sanitize_text_sublist (alnum : Char → Bool) (s : PyStr) :
    (sanitize_text alnum s).Sublist s :=
  (pyStrip_sublist _).trans (List.filter_sublist s)

theorem mem_sanitize_text {alnum : Char → Bool} {s : PyStr} {c : Char}
    (h : c ∈ sanitize_text alnum s) : keepChar alnum c = true :=
  (List.mem_filter.mp ((pyStrip_sublist _).subset h)).2

theorem not_mem_sanitize_text {alnum : Char → Bool} {s : PyStr} {c : Char}
    (h : keepChar alnum c = false) : c ∉ sanitize_text alnum s := by
  intro hm
  have := mem_sanitize_text hm
  rw [h] at this
  exact absurd this (by decide)

theorem splitSlashAux_no_slash (s : PyStr) :
    ∀ acc : PyStr, '/' ∉ s →
      splitSlashAux s acc =
        if acc.reverse ++ s = [] then [] else [acc.reverse ++ s] := by
  induction s with
  | nil =>
    intro acc h
    simp [splitSlashAux]
  | cons c rest ih =>
    intro acc h
    have hc : c ≠ '/' := by
      intro hcc
      subst hcc
      exact h (List.mem_cons_self _ _)
    have hr : '/' ∉ rest := fun hm => h (List.mem_cons_of_mem c hm)
    simp only [splitSlashAux, if_neg hc]
    rw [ih (c :: acc) hr]
    simp [List.append_assoc]

theorem splitSlash_single (s : PyStr) (h : '/' ∉ s) (hne : s ≠ []) :
    splitSlash s = [s] := by
  unfold splitSlash
  rw [splitSlashAux_no_slash s [] h]
  simp [hne]

theorem pathJoin_single (base : FPath) (s : PyStr) (h : '/' ∉ s)
    (hne : s ≠ []) : pathJoin base s = base ++ [s] := by
  unfold pathJoin
  have hh : s.head? ≠ some '/' := by
    cases s with
    | nil => simp
    | cons a t =>
      simp only [List.head?_cons]
      intro hs
      injection hs with hs
      subst hs
      exact h (List.mem_cons_self _ _)
  rw [if_neg hh, splitSlash_single s h hne]

/-! ### Claim theorems about the sanitizer -/

/-- C1: for every input string, the output of `sanitize_text` is a
subsequence of the input containing only alphanumeric characters, spaces,
hyphens and underscores, with leading and trailing whitespace removed; in
particular it contains no slash, dot or semicolon, so the artifact path
`OUTPUT_DIR / (sanitized ++ ".ttf")` is a single direct child of the
output directory and never escapes it.  The hypotheses record that Python
`str.isalnum` is false on the three metacharacters. -/
theorem sanitize_text_safe_subsequence (alnum : Char → Bool) (s : PyStr)
    (outDir : FPath) (hslash : alnum '/' = false)
    (hdot : alnum '.' = false) (hsemi : alnum ';' = false) :
    (sanitize_text alnum s).Sublist s
    ∧ (∀ c ∈ sanitize_text alnum s,
        alnum c = true ∨ c = ' ' ∨ c = '-' ∨ c = '_')
    ∧ (∀ c, (sanitize_text alnum s).head? = some c → isPyWS c = false)
    ∧ (∀ c, (sanitize_text alnum s).getLast? = some c → isPyWS c = false)
    ∧ '/' ∉ sanitize_text alnum s
    ∧ '.' ∉ sanitize_text alnum s
    ∧ ';' ∉ sanitize_text alnum s
    ∧ ttfPath outDir (sanitize_text alnum s) =
        outDir ++ [sanitize_text alnum s ++ (".ttf").data]
    ∧ sanitize_text alnum s ++ (".ttf").data ≠ ("..").data := by
  have hks : keepChar alnum '/' = false := by
    unfold keepChar
    rw [hslash]
    rfl
  have hkd : keepChar alnum '.' = false := by
    unfold keepChar
    rw [hdot]
    rfl
  have hke : keepChar alnum ';' = false := by
    unfold keepChar
    rw [hsemi]
    rfl
  have hnos : '/' ∉ sanitize_text alnum s := not_mem_sanitize_text hks
  refine ⟨sanitize_text_sublist alnum s, ?_, ?_, ?_, hnos,
    not_mem_sanitize_text hkd, not_mem_sanitize_text hke, ?_, ?_⟩
  · intro c hc
    have hk := mem_sanitize_text hc
    unfold keepChar at hk
    simp only [Bool.or_eq_true, beq_iff_eq] at hk
    tauto
  · exact fun c hc => pyStrip_head? _ c hc
  · exact fun c hc => pyStrip_getLast? _ c hc
  · unfold ttfPath
    apply pathJoin_single
    · intro hm
      rcases List.mem_append.mp hm with hm1 | hm2
      · exact hnos hm1
      · exact absurd hm2 (by decide)
    · simp
  · intro h
    have hlen := congrArg List.length h
    rw [List.length_append] at hlen
    have e1 : ((".ttf").data).length = 4 := rfl
    have e2 : (("..").data).length = 2 := rfl
    rw [e1, e2] at hlen
    omega

/-- Witness for C1 at the spec's path-traversal example and a concrete
output directory, with `alnum` instantiated by ASCII isalnum. -/
theorem sanitize_text_safe_subsequence_witness :
    asciiAlnum '/' = false
    ∧ (sanitize_text asciiAlnum (("../../etc/passwd; rm -rf").data)).Sublist
        (("../../etc/passwd; rm -rf").data)
    ∧ '/' ∉ sanitize_text asciiAlnum (("../../etc/passwd; rm -rf").data)
    ∧ ';' ∉ sanitize_text asciiAlnum (("../../etc/passwd; rm -rf").data)
    ∧ ttfPath [("outputs").data]
        (sanitize_text asciiAlnum (("../../etc/passwd; rm -rf").data)) =
      [("outputs").data] ++
        [sanitize_text asciiAlnum (("../../etc/passwd; rm -rf").data) ++
          (".ttf").data] := by
  have h := sanitize_text_safe_subsequence asciiAlnum
    (("../../etc/passwd; rm -rf").data) [("outputs").data]
    (by decide) (by decide) (by decide)
  exact ⟨by decide, h.1, h.2.2.2.2.1, h.2.2.2.2.2.2.1,
    h.2.2.2.2.2.2.2.1⟩

/-- C8: the sanitizer is idempotent: sanitizing twice equals sanitizing
once, for every classifier and every input string. -/
theorem sanitize_text_idempotent (alnum : Char → Bool) (x : PyStr) :
    sanitize_text alnum (sanitize_text alnum x) = sanitize_text alnum x := by
  have hfix : (sanitize_text alnum x).filter (keepChar alnum) =
      sanitize_text alnum x :=
    List.filter_eq_self.mpr (fun a ha => mem_sanitize_text ha)
  show pyStrip ((sanitize_text alnum x).filter (keepChar alnum)) =
    sanitize_text alnum x
  rw [hfix]
  exact pyStrip_idem _

/-! ### Shape lemmas for the validated path of `generate` -/

theorem generate_execNotFound_eq (alnum : Char → Bool)
    (UPLOAD_DIR OUTPUT_DIR : FPath) (req : GenRequest) (jobId : PyStr)
    (fs : FS) (h1 : req.hasFile = true) (h2 : req.fileName ≠ [])
    (h3 : allowed_file req.fileName = true)
    (h4 : sanitize_text alnum req.family ≠ [])
    (h5 : sanitize_text alnum req.style ≠ [])
    (h6 : sanitize_text alnum req.filenameField ≠ []) :
    generate alnum UPLOAD_DIR OUTPUT_DIR req jobId .execNotFound fs =
      ⟨.flashRedirect msgNotInstalled,
       unlink (uploadPath UPLOAD_DIR jobId (lowerStr (afterLastDot req.fileName)))
         (writeFile
           (uploadPath UPLOAD_DIR jobId (lowerStr (afterLastDot req.fileName))) fs),
       some (buildCmd
         (uploadPath UPLOAD_DIR jobId (lowerStr (afterLastDot req.fileName)))
         OUTPUT_DIR (sanitize_text alnum req.family)
         (sanitize_text alnum req.style)
         (sanitize_text alnum req.filenameField))⟩ := by
  simp only [generate]
  rw [if_neg (by simp [h1]), if_neg h2, if_neg (by simp [h3]), if_neg h4,
    if_neg h5, if_neg h6]

theorem generate_timedOut_eq (alnum : Char → Bool)
    (UPLOAD_DIR OUTPUT_DIR : FPath) (req : GenRequest) (jobId : PyStr)
    (eff : FS → FS) (fs : FS) (h1 : req.hasFile = true)
    (h2 : req.fileName ≠ []) (h3 : allowed_file req.fileName = true)
    (h4 : sanitize_text alnum req.family ≠ [])
    (h5 : sanitize_text alnum req.style ≠ [])
    (h6 : sanitize_text alnum req.filenameField ≠ []) :
    generate alnum UPLOAD_DIR OUTPUT_DIR req jobId (.timedOut eff) fs =
      ⟨.flashRedirect msgTimedOut,
       unlink (uploadPath UPLOAD_DIR jobId (lowerStr (afterLastDot req.fileName)))
         (eff (writeFile
           (uploadPath UPLOAD_DIR jobId (lowerStr (afterLastDot req.fileName))) fs)),
       some (buildCmd
         (uploadPath UPLOAD_DIR jobId (lowerStr (afterLastDot req.fileName)))
         OUTPUT_DIR (sanitize_text alnum req.family)
         (sanitize_text alnum req.style)
         (sanitize_text alnum req.filenameField))⟩ := by
  simp only [generate]
  rw [if_neg (by simp [h1]), if_neg h2, if_neg (by simp [h3]), if_neg h4,
    if_neg h5, if_neg h6]

theorem generate_completed_eq (alnum : Char → Bool)
    (UPLOAD_DIR OUTPUT_DIR : FPath) (req : GenRequest) (jobId : PyStr)
    (rc : Int) (stdout stderr : PyStr) (eff : FS → FS) (fs : FS)
    (h1 : req.hasFile = true) (h2 : req.fileName ≠ [])
    (h3 : allowed_file req.fileName = true)
    (h4 : sanitize_text alnum req.family ≠ [])
    (h5 : sanitize_text alnum req.style ≠ [])
    (h6 : sanitize_text alnum req.filenameField ≠ []) :
    generate alnum UPLOAD_DIR OUTPUT_DIR req jobId
        (.completed rc stdout stderr eff) fs =
      (if rc ≠ 0 then
        ⟨.flashRedirect (msgHandwriteFailed stdout stderr),
         unlink (uploadPath UPLOAD_DIR jobId (lowerStr (afterLastDot req.fileName)))
           (eff (writeFile
             (uploadPath UPLOAD_DIR jobId (lowerStr (afterLastDot req.fileName))) fs)),
         some (buildCmd
           (uploadPath UPLOAD_DIR jobId (lowerStr (afterLastDot req.fileName)))
           OUTPUT_DIR (sanitize_text alnum req.family)
           (sanitize_text alnum req.style)
           (sanitize_text alnum req.filenameField))⟩
      else if ttfPath OUTPUT_DIR (sanitize_text alnum req.filenameField) ∉
          unlink (uploadPath UPLOAD_DIR jobId (lowerStr (afterLastDot req.fileName)))
            (eff (writeFile
              (uploadPath UPLOAD_DIR jobId (lowerStr (afterLastDot req.fileName))) fs)) then
        ⟨.flashRedirect msgNoOutput,
         unlink (uploadPath UPLOAD_DIR jobId (lowerStr (afterLastDot req.fileName)))
           (eff (writeFile
             (uploadPath UPLOAD_DIR jobId (lowerStr (afterLastDot req.fileName))) fs)),
         some (buildCmd
           (uploadPath UPLOAD_DIR jobId (lowerStr (afterLastDot req.fileName)))
           OUTPUT_DIR (sanitize_text alnum req.family)
           (sanitize_text alnum req.style)
           (sanitize_text alnum req.filenameField))⟩
      else
        ⟨.redirectFont (sanitize_text alnum req.filenameField),
         unlink (uploadPath UPLOAD_DIR jobId (lowerStr (afterLastDot req.fileName)))
           (eff (writeFile
             (uploadPath UPLOAD_DIR jobId (lowerStr (afterLastDot req.fileName))) fs)),
         some (buildCmd
           (uploadPath UPLOAD_DIR jobId (lowerStr (afterLastDot req.fileName)))
           OUTPUT_DIR (sanitize_text alnum req.family)
           (sanitize_text alnum req.style)
           (sanitize_text alnum req.filenameField))⟩ : GenResult) := by
  simp only [generate]
  rw [if_neg (by simp [h1]), if_neg h2, if_neg (by simp [h3]), if_neg h4,
    if_neg h5, if_neg h6]

theorem not_mem_unlink (p : FPath) (fs : FS) : p ∉ unlink p fs := by
  simp [unlink, List.mem_filter]

/-! ### Claim theorems about the retrieval endpoints -/

/-- C9: the retrieval landing page GET /font/key never modifies the
filesystem: whatever the key and the state, `download_font` returns the
filesystem exactly as it was. -/
theorem download_font_preserves_fs (alnum : Char → Bool)
    (OUTPUT_DIR : FPath) (key : PyStr) (fs : FS) :
    (download_font alnum OUTPUT_DIR key fs).2 = fs := by
  simp only [download_font]
  split
  · rfl
  · split
    · rfl
    · rfl

/-- C6: both retrieval endpoints answer 400 exactly when re-sanitizing the
(non-empty) key does not reproduce it, and answer 404 when the key passes
that check but the artifact file does not exist. -/
theorem retrieval_key_check_400_404 (alnum : Char → Bool)
    (OUTPUT_DIR : FPath) (key : PyStr) (fs : FS) (hne : key ≠ []) :
    ((download_font alnum OUTPUT_DIR key fs).1 = .clientError 400 ↔
      sanitize_text alnum key ≠ key)
    ∧ ((serve_font_file alnum OUTPUT_DIR key fs).1 = .clientError 400 ↔
      sanitize_text alnum key ≠ key)
    ∧ (sanitize_text alnum key = key → ttfPath OUTPUT_DIR key ∉ fs →
        (download_font alnum OUTPUT_DIR key fs).1 = .clientError 404
        ∧ (serve_font_file alnum OUTPUT_DIR key fs).1 = .clientError 404) := by
  by_cases hs : sanitize_text alnum key = key
  · have hc1 : ¬(sanitize_text alnum key = [] ∨ sanitize_text alnum key ≠ key) := by
      rw [hs]
      simp [hne]
    refine ⟨?_, ?_, ?_⟩
    · simp only [download_font, if_neg hc1]
      constructor
      · intro h400
        by_cases hex : ttfPath OUTPUT_DIR key ∉ fs
        · rw [if_pos hex] at h400
          injection h400 with h400
          exact absurd h400 (by decide)
        · rw [if_neg hex] at h400
          cases h400
      · intro hk
        exact absurd hs hk
    · simp only [serve_font_file, if_neg hc1]
      constructor
      · intro h400
        by_cases hex : ttfPath OUTPUT_DIR key ∉ fs
        · rw [if_pos hex] at h400
          injection h400 with h400
          exact absurd h400 (by decide)
        · rw [if_neg hex] at h400
          cases h400
      · intro hk
        exact absurd hs hk
    · intro _ hmiss
      constructor
      · simp only [download_font, if_neg hc1, if_pos hmiss]
      · simp only [serve_font_file, if_neg hc1, if_pos hmiss]
  · have hc1 : sanitize_text alnum key = [] ∨ sanitize_text alnum key ≠ key :=
      Or.inr hs
    refine ⟨?_, ?_, fun hk => absurd hk hs⟩
    · simp only [download_font, if_pos hc1]
      simp [hs]
    · simp only [serve_font_file, if_pos hc1]
      simp [hs]

/-- Witness for C6 at a concrete key and the empty filesystem. -/
theorem retrieval_key_check_400_404_witness :
    (("myfont").data ≠ [])
    ∧ ((download_font asciiAlnum [("outputs").data] (("myfont").data) []).1 =
        .clientError 400 ↔
        sanitize_text asciiAlnum (("myfont").data) ≠ ("myfont").data)
    ∧ ((download_font asciiAlnum [("outputs").data] (("myfont").data) []).1 =
          .clientError 404
        ∧ (serve_font_file asciiAlnum [("outputs").data] (("myfont").data) []).1 =
          .clientError 404) := by
  have h := retrieval_key_check_400_404 asciiAlnum [("outputs").data]
    (("myfont").data) [] (by decide)
  exact ⟨by decide, h.1, h.2.2 (by decide) (by decide)⟩

/-- C2: retrieval of the artifact is single-use: when the key is in
sanitized form and the artifact exists, GET /font/key/file answers with the
attachment and its close hook removes the artifact, so the same request
repeated on the resulting state answers 404 (as does the landing page). -/
theorem serve_font_file_single_use (alnum : Char → Bool)
    (OUTPUT_DIR : FPath) (key : PyStr) (fs : FS)
    (hkey : sanitize_text alnum key = key) (hne : key ≠ [])
    (hex : ttfPath OUTPUT_DIR key ∈ fs) :
    (serve_font_file alnum OUTPUT_DIR key fs).1 =
      .fileAttachment (key ++ (".ttf").data)
    ∧ ttfPath OUTPUT_DIR key ∉ (serve_font_file alnum OUTPUT_DIR key fs).2
    ∧ (serve_font_file alnum OUTPUT_DIR key
        (serve_font_file alnum OUTPUT_DIR key fs).2).1 = .clientError 404
    ∧ (download_font alnum OUTPUT_DIR key
        (serve_font_file alnum OUTPUT_DIR key fs).2).1 = .clientError 404 := by
  have hc1 : ¬(sanitize_text alnum key = [] ∨ sanitize_text alnum key ≠ key) := by
    rw [hkey]
    simp [hne]
  have h1 : serve_font_file alnum OUTPUT_DIR key fs =
      (.fileAttachment (key ++ (".ttf").data),
       unlink (ttfPath OUTPUT_DIR key) fs) := by
    simp only [serve_font_file, if_neg hc1]
    rw [if_neg (not_not_intro hex)]
  have hnotin := not_mem_unlink (ttfPath OUTPUT_DIR key) fs
  refine ⟨by rw [h1], by rw [h1]; exact hnotin, ?_, ?_⟩
  · rw [h1]
    simp only [serve_font_file, if_neg hc1]
    rw [if_pos hnotin]
  · rw [h1]
    simp only [download_font, if_neg hc1]
    rw [if_pos hnotin]

/-- Witness for C2: a concrete key and a filesystem holding exactly the
artifact; the first download succeeds, the second returns 404. -/
theorem serve_font_file_single_use_witness :
    sanitize_text asciiAlnum (("myfont").data) = ("myfont").data
    ∧ (serve_font_file asciiAlnum [("outputs").data] (("myfont").data)
        [ttfPath [("outputs").data] (("myfont").data)]).1 =
      .fileAttachment (("myfont").data ++ (".ttf").data)
    ∧ (serve_font_file asciiAlnum [("outputs").data] (("myfont").data)
        (serve_font_file asciiAlnum [("outputs").data] (("myfont").data)
          [ttfPath [("outputs").data] (("myfont").data)]).2).1 =
      .clientError 404 := by
  have h := serve_font_file_single_use asciiAlnum [("outputs").data]
    (("myfont").data) [ttfPath [("outputs").data] (("myfont").data)]
    (by decide) (by decide) (by simp)
  exact ⟨by decide, h.1, h.2.2.1⟩

/-! ### Claim theorems about the generation request -/

/-- C3: on every exit path of the generation request reached after the
upload was saved (executable not found, timeout, non-zero exit, zero exit
with missing output, and success), the uploaded input file is no longer in
the filesystem afterwards; and `unlink` models `missing_ok=True`, so
deleting an already absent file is a no-op rather than an error. -/
theorem generate_deletes_upload_on_all_paths (alnum : Char → Bool)
    (UPLOAD_DIR OUTPUT_DIR : FPath) (req : GenRequest) (jobId : PyStr)
    (outcome : RunOutcome) (fs : FS) (h1 : req.hasFile = true)
    (h2 : req.fileName ≠ []) (h3 : allowed_file req.fileName = true)
    (h4 : sanitize_text alnum req.family ≠ [])
    (h5 : sanitize_text alnum req.style ≠ [])
    (h6 : sanitize_text alnum req.filenameField ≠ []) :
    uploadPath UPLOAD_DIR jobId (lowerStr (afterLastDot req.fileName)) ∉
      (generate alnum UPLOAD_DIR OUTPUT_DIR req jobId outcome fs).fs
    ∧ (∀ (p : FPath) (fs0 : FS), p ∉ fs0 → unlink p fs0 = fs0) := by
  constructor
  · cases outcome with
    | execNotFound =>
      rw [generate_execNotFound_eq alnum UPLOAD_DIR OUTPUT_DIR req jobId fs
        h1 h2 h3 h4 h5 h6]
      exact not_mem_unlink _ _
    | timedOut eff =>
      rw [generate_timedOut_eq alnum UPLOAD_DIR OUTPUT_DIR req jobId eff fs
        h1 h2 h3 h4 h5 h6]
      exact not_mem_unlink _ _
    | completed rc stdout stderr eff =>
      rw [generate_completed_eq alnum UPLOAD_DIR OUTPUT_DIR req jobId rc
        stdout stderr eff fs h1 h2 h3 h4 h5 h6]
      split
      · exact not_mem_unlink _ _
      · split
        · exact not_mem_unlink _ _
        · exact not_mem_unlink _ _
  · intro p fs0 hp
    unfold unlink
    apply List.filter_eq_self.mpr
    intro a ha
    simp only [decide_eq_true_eq]
    intro he
    exact hp (he ▸ ha)

/-- Witness for C3 at a concrete valid request with the tool-unavailable
outcome, plus a concrete no-op deletion of an absent file. -/
theorem generate_deletes_upload_on_all_paths_witness :
    uploadPath [("uploads").data] (("0123456789abcdef0123456789abcdef").data)
        (lowerStr (afterLastDot (("scan.png").data))) ∉
      (generate asciiAlnum [("uploads").data] [("outputs").data]
        ⟨true, ("scan.png").data, ("Sans").data, ("Regular").data,
          ("myfont").data⟩
        (("0123456789abcdef0123456789abcdef").data) .execNotFound []).fs
    ∧ unlink [("uploads").data] [] = [] := by
  have h := generate_deletes_upload_on_all_paths asciiAlnum
    [("uploads").data] [("outputs").data]
    ⟨true, ("scan.png").data, ("Sans").data, ("Regular").data,
      ("myfont").data⟩
    (("0123456789abcdef0123456789abcdef").data) .execNotFound []
    (by decide) (by decide) (by decide) (by decide) (by decide) (by decide)
  exact ⟨h.1, h.2 [("uploads").data] [] (by decide)⟩

/-- C5: when validation fails (missing file part, empty filename,
extension not in the allow-list, or a text field empty after
sanitization), the filesystem is unchanged and `subprocess.run` is never
reached. -/
theorem generate_validation_failure_no_effect (alnum : Char → Bool)
    (UPLOAD_DIR OUTPUT_DIR : FPath) (req : GenRequest) (jobId : PyStr)
    (outcome : RunOutcome) (fs : FS)
    (h : req.hasFile = false ∨ req.fileName = []
      ∨ allowed_file req.fileName = false
      ∨ sanitize_text alnum req.family = []
      ∨ sanitize_text alnum req.style = []
      ∨ sanitize_text alnum req.filenameField = []) :
    (generate alnum UPLOAD_DIR OUTPUT_DIR req jobId outcome fs).fs = fs
    ∧ (generate alnum UPLOAD_DIR OUTPUT_DIR req jobId outcome fs).invoked =
      none := by
  simp only [generate]
  split
  · exact ⟨rfl, rfl⟩
  · split
    · exact ⟨rfl, rfl⟩
    · split
      · exact ⟨rfl, rfl⟩
      · split
        · exact ⟨rfl, rfl⟩
        · split
          · exact ⟨rfl, rfl⟩
          · split
            · exact ⟨rfl, rfl⟩
            · rename_i hc1 hc2 hc3 hc4 hc5 hc6
              rcases h with h | h | h | h | h | h
              · exact absurd h hc1
              · exact absurd h hc2
              · exact absurd h hc3
              · exact absurd h hc4
              · exact absurd h hc5
              · exact absurd h hc6

/-- Witness for C5 at the spec's `notes.txt` rejected upload. -/
theorem generate_validation_failure_no_effect_witness :
    (generate asciiAlnum [("uploads").data] [("outputs").data]
        ⟨true, ("notes.txt").data, ("Sans").data, ("Regular").data,
          ("myfont").data⟩
        (("0123456789abcdef0123456789abcdef").data) .execNotFound []).fs = []
    ∧ (generate asciiAlnum [("uploads").data] [("outputs").data]
        ⟨true, ("notes.txt").data, ("Sans").data, ("Regular").data,
          ("myfont").data⟩
        (("0123456789abcdef0123456789abcdef").data) .execNotFound []).invoked =
      none :=
  generate_validation_failure_no_effect asciiAlnum [("uploads").data]
    [("outputs").data]
    ⟨true, ("notes.txt").data, ("Sans").data, ("Regular").data,
      ("myfont").data⟩
    (("0123456789abcdef0123456789abcdef").data) .execNotFound []
    (Or.inr (Or.inr (Or.inl (by decide))))

/-- C7: with a zero exit status, the request succeeds only if the expected
artifact exists: if `outputs/<sanitized filename>.ttf` is absent after the
run the user sees "produced no output file" and there is no success
redirect; if it is present the response is the redirect keyed by the
sanitized filename field. -/
theorem generate_zero_exit_requires_artifact (alnum : Char → Bool)
    (UPLOAD_DIR OUTPUT_DIR : FPath) (req : GenRequest) (jobId : PyStr)
    (stdout stderr : PyStr) (eff : FS → FS) (fs : FS)
    (h1 : req.hasFile = true) (h2 : req.fileName ≠ [])
    (h3 : allowed_file req.fileName = true)
    (h4 : sanitize_text alnum req.family ≠ [])
    (h5 : sanitize_text alnum req.style ≠ [])
    (h6 : sanitize_text alnum req.filenameField ≠ []) :
    (ttfPath OUTPUT_DIR (sanitize_text alnum req.filenameField) ∉
        unlink (uploadPath UPLOAD_DIR jobId (lowerStr (afterLastDot req.fileName)))
          (eff (writeFile
            (uploadPath UPLOAD_DIR jobId (lowerStr (afterLastDot req.fileName))) fs)) →
      (generate alnum UPLOAD_DIR OUTPUT_DIR req jobId
          (.completed 0 stdout stderr eff) fs).response =
        .flashRedirect msgNoOutput)
    ∧ (ttfPath OUTPUT_DIR (sanitize_text alnum req.filenameField) ∈
        unlink (uploadPath UPLOAD_DIR jobId (lowerStr (afterLastDot req.fileName)))
          (eff (writeFile
            (uploadPath UPLOAD_DIR jobId (lowerStr (afterLastDot req.fileName))) fs)) →
      (generate alnum UPLOAD_DIR OUTPUT_DIR req jobId
          (.completed 0 stdout stderr eff) fs).response =
        .redirectFont (sanitize_text alnum req.filenameField)) := by
  rw [generate_completed_eq alnum UPLOAD_DIR OUTPUT_DIR req jobId 0 stdout
    stderr eff fs h1 h2 h3 h4 h5 h6]
  rw [if_neg (show ¬((0 : Int) ≠ 0) by simp)]
  constructor
  · intro hmiss
    rw [if_pos hmiss]
  · intro hin
    rw [if_neg (not_not_intro hin)]

/-- Witness for C7: the same valid request with a zero exit; with a tool
effect that writes nothing the response is the no-output error, with one
that writes the artifact it is the success redirect. -/
theorem generate_zero_exit_requires_artifact_witness :
    (generate asciiAlnum [("uploads").data] [("outputs").data]
        ⟨true, ("scan.png").data, ("Sans").data, ("Regular").data,
          ("myfont").data⟩
        (("0123456789abcdef0123456789abcdef").data)
        (.completed 0 [] [] (fun s => s)) []).response =
      .flashRedirect msgNoOutput
    ∧ (generate asciiAlnum [("uploads").data] [("outputs").data]
        ⟨true, ("scan.png").data, ("Sans").data, ("Regular").data,
          ("myfont").data⟩
        (("0123456789abcdef0123456789abcdef").data)
        (.completed 0 [] []
          (fun s => ttfPath [("outputs").data]
            (sanitize_text asciiAlnum (("myfont").data)) :: s)) []).response =
      .redirectFont (sanitize_text asciiAlnum (("myfont").data)) := by
  constructor
  · exact (generate_zero_exit_requires_artifact asciiAlnum [("uploads").data]
      [("outputs").data]
      ⟨true, ("scan.png").data, ("Sans").data, ("Regular").data,
        ("myfont").data⟩
      (("0123456789abcdef0123456789abcdef").data) [] [] (fun s => s) []
      (by decide) (by decide) (by decide) (by decide) (by decide)
      (by decide)).1 (by decide)
  · exact (generate_zero_exit_requires_artifact asciiAlnum [("uploads").data]
      [("outputs").data]
      ⟨true, ("scan.png").data, ("Sans").data, ("Regular").data,
        ("myfont").data⟩
      (("0123456789abcdef0123456789abcdef").data) [] []
      (fun s => ttfPath [("outputs").data]
        (sanitize_text asciiAlnum (("myfont").data)) :: s) []
      (by decide) (by decide) (by decide) (by decide) (by decide)
      (by decide)).2 (by decide)

/-- C4 counterexample: the code calls plain `subprocess.run`, whose
timeout handling kills only the direct child pid, so "all of its
descendants are forcibly terminated" fails: at the concrete process with
child pid 1 and descendant pid 2, both alive, the descendant is still
alive after the timeout kill. -/
theorem timeout_kill_leaves_descendant_alive :
    ¬(∀ d ∈ (SpawnedProc.mk 1 [2]).descendantPids,
        d ∉ pidsAliveAfterTimeoutKill (SpawnedProc.mk 1 [2]) [1, 2]) := by
  decide

/-- C4 (amended): the runner uses a hard 120-second wall-clock timeout and
an argv list with no shell interpretation; on timeout the direct child
process (only) is forcibly killed, the request signals "timed out", and
the uploaded input file is still deleted. -/
theorem generate_timeout_kills_child_and_cleans_up (alnum : Char → Bool)
    (UPLOAD_DIR OUTPUT_DIR : FPath) (req : GenRequest) (jobId : PyStr)
    (eff : FS → FS) (fs : FS) (p : SpawnedProc) (alive : List Nat)
    (h1 : req.hasFile = true) (h2 : req.fileName ≠ [])
    (h3 : allowed_file req.fileName = true)
    (h4 : sanitize_text alnum req.family ≠ [])
    (h5 : sanitize_text alnum req.style ≠ [])
    (h6 : sanitize_text alnum req.filenameField ≠ []) :
    timeoutSeconds = 120
    ∧ (generate alnum UPLOAD_DIR OUTPUT_DIR req jobId (.timedOut eff) fs).response =
      .flashRedirect msgTimedOut
    ∧ uploadPath UPLOAD_DIR jobId (lowerStr (afterLastDot req.fileName)) ∉
      (generate alnum UPLOAD_DIR OUTPUT_DIR req jobId (.timedOut eff) fs).fs
    ∧ (generate alnum UPLOAD_DIR OUTPUT_DIR req jobId (.timedOut eff) fs).invoked =
      some (buildCmd
        (uploadPath UPLOAD_DIR jobId (lowerStr (afterLastDot req.fileName)))
        OUTPUT_DIR (sanitize_text alnum req.family)
        (sanitize_text alnum req.style)
        (sanitize_text alnum req.filenameField))
    ∧ p.childPid ∉ pidsAliveAfterTimeoutKill p alive := by
  rw [generate_timedOut_eq alnum UPLOAD_DIR OUTPUT_DIR req jobId eff fs
    h1 h2 h3 h4 h5 h6]
  refine ⟨rfl, rfl, not_mem_unlink _ _, rfl, ?_⟩
  simp [pidsAliveAfterTimeoutKill, List.mem_filter]

/-- Witness for C4 (amended) at the concrete valid request, identity tool
effect and the concrete process of the counterexample. -/
theorem generate_timeout_kills_child_and_cleans_up_witness :
    timeoutSeconds = 120
    ∧ (generate asciiAlnum [("uploads").data] [("outputs").data]
        ⟨true, ("scan.png").data, ("Sans").data, ("Regular").data,
          ("myfont").data⟩
        (("0123456789abcdef0123456789abcdef").data)
        (.timedOut (fun s => s)) []).response = .flashRedirect msgTimedOut
    ∧ (SpawnedProc.mk 1 [2]).childPid ∉
      pidsAliveAfterTimeoutKill (SpawnedProc.mk 1 [2]) [1, 2] := by
  have h := generate_timeout_kills_child_and_cleans_up asciiAlnum
    [("uploads").data] [("outputs").data]
    ⟨true, ("scan.png").data, ("Sans").data, ("Regular").data,
      ("myfont").data⟩
    (("0123456789abcdef0123456789abcdef").data) (fun s => s) []
    (SpawnedProc.mk 1 [2]) [1, 2]
    (by decide) (by decide) (by decide) (by decide) (by decide) (by decide)
  exact ⟨h.1, h.2.1, h.2.2.2.2⟩

/-- C10: the extension check looks only at the lowercased substring after
the last dot of the claimed filename; any filename with a dot whose final
suffix lowercases into the allow-list is accepted; and the stored upload
path is the single component `<jobId>.<ext>` under the upload directory,
with `jobId` the 32-hex token and `ext` from the allow-list, never any
other client-controlled text. -/
theorem allowed_file_suffix_and_storage_path (f : PyStr) (hdot : '.' ∈ f) :
    (allowed_file f = true ↔
      lowerStr (afterLastDot f) ∈ ALLOWED_EXTENSIONS)
    ∧ (∀ g : PyStr, '.' ∈ g → afterLastDot f = afterLastDot g →
        allowed_file f = allowed_file g)
    ∧ (∀ (UPLOAD_DIR : FPath) (jobId : PyStr), isHex32 jobId = true →
        lowerStr (afterLastDot f) ∈ ALLOWED_EXTENSIONS →
        uploadPath UPLOAD_DIR jobId (lowerStr (afterLastDot f)) =
          UPLOAD_DIR ++ [jobId ++ '.' :: lowerStr (afterLastDot f)]) := by
  refine ⟨by simp [allowed_file, hdot], ?_, ?_⟩
  · intro g hg ha
    simp [allowed_file, hdot, hg, ha]
  · intro UPLOAD_DIR jobId hhex hext
    have hallhex : ∀ c ∈ jobId, isHexDigit c = true := by
      have h2 : jobId.length = 32 ∧ ∀ x ∈ jobId, isHexDigit x = true := by
        simpa [isHex32] using hhex
      exact h2.2
    have hextcases : lowerStr (afterLastDot f) = ("png").data
        ∨ lowerStr (afterLastDot f) = ("jpg").data
        ∨ lowerStr (afterLastDot f) = ("jpeg").data := by
      simpa [ALLOWED_EXTENSIONS] using hext
    unfold uploadPath
    apply pathJoin_single
    · intro hm
      rcases List.mem_append.mp hm with hm1 | hm2
      · have := hallhex '/' hm1
        exact absurd this (by decide)
      · rcases List.mem_cons.mp hm2 with he | he
        · exact absurd he (by decide)
        · rcases hextcases with hcc | hcc | hcc <;> rw [hcc] at he <;>
            exact absurd he (by decide)
    · simp

/-- Witness for C10: the dotted names `.png` and `a.tar.PNG` are both
accepted, and the storage path at a concrete 32-hex job id is the single
component under the upload directory. -/
theorem allowed_file_suffix_and_storage_path_witness :
    ('.' ∈ (".png").data)
    ∧ allowed_file ((".png").data) = true
    ∧ allowed_file (("a.tar.PNG").data) = true
    ∧ uploadPath [("uploads").data]
        (("0123456789abcdef0123456789abcdef").data)
        (lowerStr (afterLastDot ((".png").data))) =
      [("uploads").data] ++
        [("0123456789abcdef0123456789abcdef").data ++
          '.' :: lowerStr (afterLastDot ((".png").data))] := by
  have hA := allowed_file_suffix_and_storage_path ((".png").data) (by decide)
  have hB := allowed_file_suffix_and_storage_path (("a.tar.PNG").data)
    (by decide)
  exact ⟨by decide, hA.1.mpr (by decide), hB.1.mpr (by decide),
    hA.2.2 [("uploads").data] (("0123456789abcdef0123456789abcdef").data)
      (by decide) (by decide)⟩

end WriteHand
